import Mathlib

/-!
Verification of the fitana plan-generation state machine.

Shallow embedding of:
- `plan/models.py` : `UserProgress` (`mark_step_completed`, `can_access_step`)
  and `PlanGeneration` (`can_retry`);
- `plan/views.py`  : `PlanGenerationView.post` (enqueue),
  `RetryPlanGenerationView.post` (manual retry), `cancel_plan_generation`;
- `plan/services.py` : `PlanGenerationService.generate_user_plan` (the worker,
  one database transaction with rollback-on-exception);
- `plan/tasks.py`  : `generate_user_plan_async` (celery task with bounded
  automatic retry and exponential backoff).

Steps and statuses are strings, exactly as in the source.  Timestamps are
modelled as `Option Nat` (absent / stamped at an abstract clock value).
Persisted plan rows are counted; a job links to a row by its index.
-/

/-- `plan/models.py` `UserProgress`: the per-user funnel state.  The two
relevant columns are `current_step` (a string, default `"goal_selection"`)
and `completed_steps` (a JSON list, default `[]`). -/
structure UserProgress where
  current_step : String
  completed_steps : List String
deriving DecidableEq

/-- The `step_progression` dict literal inside
`UserProgress.mark_step_completed` (`plan/models.py` lines 40-47). -/
def step_progression (step : String) : Option String :=
  match step with
  | "goal_selection" => some "questionnaire"
  | "questionnaire" => some "payment_pending"
  | "payment_pending" => some "payment_completed"
  | "payment_completed" => some "plan_generation"
  | "plan_generation" => some "plan_ready"
  | "plan_ready" => some "completed"
  | _ => none

/-- `UserProgress.mark_step_completed` (`plan/models.py` lines 34-52):
append `step` to `completed_steps` when not already present; if `step` is a
key of the progression dict, set `current_step` to its successor. -/
def UserProgress.mark_step_completed (p : UserProgress) (step : String) : UserProgress :=
  let completed := if step ∈ p.completed_steps then p.completed_steps
                   else p.completed_steps ++ [step]
  match step_progression step with
  | some nxt => { current_step := nxt, completed_steps := completed }
  | none => { p with completed_steps := completed }

/-- The `step_order` list inside `UserProgress.can_access_step`
(`plan/models.py` lines 56-57). -/
def step_order : List String :=
  ["goal_selection", "questionnaire", "payment_pending",
   "payment_completed", "plan_generation", "plan_ready", "completed"]

/-- Python `list.index`: first index of `x`, or an exception (`none` here)
when `x` does not occur. -/
def list_index : List String → String → Option Nat
  | [], _ => none
  | a :: t, x => if a == x then some 0 else (list_index t x).map (fun n => n + 1)

/-- `UserProgress.can_access_step` (`plan/models.py` lines 54-62).
Python evaluates `step_order.index(self.current_step)` first; either failing
lookup raises `ValueError`, modelled as `none`. -/
def UserProgress.can_access_step (p : UserProgress) (step : String) : Option Bool :=
  match list_index step_order p.current_step with
  | none => none
  | some current_index =>
    match list_index step_order step with
    | none => none
    | some requested_index => some (decide (requested_index ≤ current_index))

/-- The positional index of a member of `step_order` (total on members;
used only to state claims about members). -/
def step_index (s : String) : Nat := step_order.findIdx (fun t => t == s)

-- ===== helper lemmas about list_index =====

theorem list_index_eq_none (l : List String) (x : String) (h : x ∉ l) :
    list_index l x = none := by
  induction l with
  | nil => rfl
  | cons a t ih =>
    rw [List.mem_cons, not_or] at h
    have ha : (a == x) = false := by
      simp only [beq_eq_false_iff_ne, ne_eq]
      exact fun he => h.1 he.symm
    simp [list_index, ha, ih h.2]

/-- `can_access_step` only reads `current_step`; the completed list is
irrelevant to it. -/
theorem can_access_step_eq_of_cur (cur step : String) (l : List String) :
    UserProgress.can_access_step ⟨cur, l⟩ step =
      UserProgress.can_access_step ⟨cur, []⟩ step := rfl

-- ===== C2 =====

/-- C2 (corrected): for a `step` that is not a key of the progression dict,
`mark_step_completed` leaves `current_step` unchanged, but it still appends
`step` to `completed_steps` when not already present — only the
`current_step` update is guarded by dict membership, the append is not. -/
theorem C2_mark_unrecognized_step (p : UserProgress) (step : String)
    (h : step_progression step = none) :
    (p.mark_step_completed step).current_step = p.current_step ∧
    (p.mark_step_completed step).completed_steps =
      (if step ∈ p.completed_steps then p.completed_steps
       else p.completed_steps ++ [step]) := by
  unfold UserProgress.mark_step_completed
  rw [h]
  exact ⟨rfl, rfl⟩

/-- C2 counterexample: `"body_scan"` is not a recognized step, yet marking it
on a fresh state changes the state (`completed_steps` becomes
`["body_scan"]`), refuting "silent no-op, no state change". -/
theorem C2_counterexample :
    step_progression "body_scan" = none ∧
    UserProgress.mark_step_completed ⟨"goal_selection", []⟩ "body_scan" ≠
      (⟨"goal_selection", []⟩ : UserProgress) ∧
    (UserProgress.mark_step_completed ⟨"goal_selection", []⟩ "body_scan").completed_steps
      = ["body_scan"] := by
  decide

/-- C2 witness: the amended claim evaluated at a concrete unrecognized step. -/
theorem C2_witness :
    (UserProgress.mark_step_completed ⟨"questionnaire", []⟩ "body_scan").current_step
      = (⟨"questionnaire", []⟩ : UserProgress).current_step ∧
    (UserProgress.mark_step_completed ⟨"questionnaire", []⟩ "body_scan").completed_steps
      = (if "body_scan" ∈ (⟨"questionnaire", []⟩ : UserProgress).completed_steps
         then (⟨"questionnaire", []⟩ : UserProgress).completed_steps
         else (⟨"questionnaire", []⟩ : UserProgress).completed_steps ++ ["body_scan"]) :=
  C2_mark_unrecognized_step ⟨"questionnaire", []⟩ "body_scan" rfl

-- ===== C8 =====

/-- C8 (confirmed): for `current_step` and `step` both among the seven fixed
steps, `can_access_step` returns a boolean, and it returns `true` exactly when
the positional index of `step` in the fixed order is at most the index of
`current_step`. -/
theorem C8_can_access_step (cur step : String) (l : List String)
    (hc : cur ∈ step_order) (hs : step ∈ step_order) :
    (UserProgress.can_access_step ⟨cur, l⟩ step).isSome = true ∧
    (UserProgress.can_access_step ⟨cur, l⟩ step = some true ↔
      step_index step ≤ step_index cur) := by
  fin_cases hc <;> fin_cases hs <;>
    (rw [can_access_step_eq_of_cur]; decide)

/-- C8 witness: `payment_pending` is accessible from `payment_completed`. -/
theorem C8_witness :
    (UserProgress.can_access_step ⟨"payment_completed", []⟩ "payment_pending").isSome = true ∧
    (UserProgress.can_access_step ⟨"payment_completed", []⟩ "payment_pending" = some true ↔
      step_index "payment_pending" ≤ step_index "payment_completed") :=
  C8_can_access_step "payment_completed" "payment_pending" []
    (by decide) (by decide)

-- ===== C10 =====

/-- C10 (confirmed): `can_access_step` is not total: whenever the requested
step, or the state's own `current_step`, is not one of the seven fixed step
names, the `list.index` lookup fails (Python raises `ValueError`, modelled as
`none`) instead of producing a boolean. -/
theorem C10_can_access_step_not_total (p : UserProgress) (step : String)
    (h : p.current_step ∉ step_order ∨ step ∉ step_order) :
    p.can_access_step step = none := by
  unfold UserProgress.can_access_step
  rcases h with h | h
  · rw [list_index_eq_none _ _ h]
  · cases hc : list_index step_order p.current_step with
    | none => rfl
    | some ci => rw [list_index_eq_none _ _ h]

/-- C10 witness: an unknown step name crashes the gate rather than being
denied. -/
theorem C10_witness :
    UserProgress.can_access_step ⟨"goal_selection", []⟩ "body_scan" = none :=
  C10_can_access_step_not_total ⟨"goal_selection", []⟩ "body_scan"
    (Or.inr (by decide))

-- ===== PlanGeneration and the per-user system state =====

/-- `plan/models.py` `PlanGeneration`: the fields the claims are about.
Generated plan rows are referenced by index (`workout_plan` / `diet_plan`);
`retry_count` defaults to 0, `max_retries` to 3. -/
structure PlanGeneration where
  status : String
  queued_at : Option Nat
  started_at : Option Nat
  completed_at : Option Nat
  error_message : String
  retry_count : Nat
  max_retries : Nat
  workout_plan : Option Nat
  diet_plan : Option Nat
  processing_time_seconds : Option Nat
deriving DecidableEq

/-- `PlanGeneration.can_retry` (`plan/models.py` lines 111-112). -/
def PlanGeneration.can_retry (g : PlanGeneration) : Bool :=
  decide (g.retry_count < g.max_retries) && g.status == "failed"

/-- One user's slice of the database, as touched by the plan app:
the lazily created `UserProgress` row, the two external precondition
lookups (a completed `UserGoal`, a completed `Payment`), the at-most-one
`PlanGeneration` row for the user's goal (a `OneToOneField`), and counts of
persisted `WorkoutPlan` / `DietPlan` / `UserPlanSummary` rows. -/
structure Sys where
  progress : Option UserProgress
  has_completed_goal : Bool
  has_completed_payment : Bool
  job : Option PlanGeneration
  workout_plans : Nat
  diet_plans : Nat
  summaries : Nat
deriving DecidableEq

/-- The `defaults` used by `UserProgress.objects.get_or_create`
(`plan/views.py` lines 37-40) together with the model defaults. -/
def progress_default : UserProgress :=
  { current_step := "goal_selection", completed_steps := [] }

/-- `UserProgressView.get` (`plan/views.py` lines 35-42): get-or-create. -/
def user_progress_get (s : Sys) : Sys :=
  match s.progress with
  | none => { s with progress := some progress_default }
  | some _ => s

/-- The `PlanGeneration.objects.create(...)` call of
`PlanGenerationView.post` (`plan/views.py` lines 104-109) plus model
defaults. -/
def new_plan_generation (now : Nat) : PlanGeneration :=
  { status := "queued", queued_at := some now, started_at := none,
    completed_at := none, error_message := "", retry_count := 0,
    max_retries := 3, workout_plan := none, diet_plan := none,
    processing_time_seconds := none }

/-- `PlanGenerationView.post` (`plan/views.py` lines 78-128): the enqueue
operation.  Checks, in source order: a completed `UserGoal` exists; a
completed `Payment` exists; no `PlanGeneration` row exists for the goal
(`hasattr(user_goal, 'plan_generation')`, status irrelevant).  Then, inside
one `transaction.atomic` block, creates the job at `queued` and marks the
`payment_completed` progress step; a missing `UserProgress` row raises inside
the block, rolling everything back (caught as a 500 error).  Returns the new
state and the error surfaced to the caller, if any. -/
def plan_generation_post (now : Nat) (s : Sys) : Sys × Option String :=
  if !s.has_completed_goal then (s, some "No completed questionnaire found")
  else if !s.has_completed_payment then (s, some "No valid payment found")
  else if s.job.isSome then (s, some "Plan generation already exists")
  else
    match s.progress with
    | none => (s, some "Plan generation failed: UserProgress matching query does not exist.")
    | some p =>
      ({ s with job := some (new_plan_generation now),
                progress := some (p.mark_step_completed "payment_completed") }, none)

/-- `RetryPlanGenerationView.post` (`plan/views.py` lines 135-159): the
manual retry.  404 when no job row exists; rejected when `can_retry` is
false; otherwise resets to `queued`, re-stamps `queued_at`, clears
`error_message` and increments `retry_count`. -/
def retry_plan_generation (now : Nat) (s : Sys) : Sys × Option String :=
  match s.job with
  | none => (s, some "Not found")
  | some g =>
    if !g.can_retry then
      (s, some "Cannot retry plan generation. Max retries exceeded or status not failed.")
    else
      ({ s with job := some { g with
                  status := "queued"
                  queued_at := some now
                  error_message := ""
                  retry_count := g.retry_count + 1 } },
       none)

/-- The status test of `cancel_plan_generation` (`plan/views.py` line 345).
The view runs with no transaction, so this read and the write below are
separate autocommit statements. -/
def cancel_status_check (g : PlanGeneration) : Bool :=
  g.status == "queued" || g.status == "processing"

/-- The write half of `cancel_plan_generation` (`plan/views.py` lines
350-356): set the job to `cancelled`, then set the user's progress
`current_step` back to `payment_completed`. -/
def cancel_write (s : Sys) : Sys :=
  let s1 := match s.job with
            | none => s
            | some g => { s with job := some { g with status := "cancelled" } }
  match s1.progress with
  | none => s1
  | some p => { s1 with progress := some { p with current_step := "payment_completed" } }

/-- `cancel_plan_generation` (`plan/views.py` lines 337-366) run without
interference: 404 when the goal or the job is missing; rejected from a
terminal status; otherwise the job is set to `cancelled` and the progress
row's `current_step` is written back to `payment_completed` (a missing
progress row leaves the already-saved job write in place and surfaces a 500,
since the view has no transaction). -/
def cancel_plan_generation (s : Sys) : Sys × Option String :=
  if !s.has_completed_goal then (s, some "No questionnaire found")
  else
    match s.job with
    | none => (s, some "Not found")
    | some g =>
      if cancel_status_check g then
        let s1 := { s with job := some { g with status := "cancelled" } }
        match s1.progress with
        | none => (s1, some "UserProgress matching query does not exist.")
        | some p =>
          ({ s1 with progress := some { p with current_step := "payment_completed" } }, none)
      else (s, some "Cannot cancel plan generation in current status")

-- ===== the worker (plan/services.py) =====

/-- Failure injection for `generate_user_plan`: `fail_on failAt k` says an
exception is raised at point `k` of the transaction body (0 = the AI
assembly call, 1 = the `WorkoutPlan` create, 2 = the `DietPlan` create,
3 = the `UserPlanSummary` create). -/
def fail_on (failAt : Option Nat) (k : Nat) : Bool := failAt == some k

/-- The body of the `transaction.atomic` block of
`PlanGenerationService.generate_user_plan` (`plan/services.py` lines
286-370), after the job has been fetched and found `queued`.  Source order:
set `processing` + `started_at`; call the assembler; create the workout
plan; create the diet plan; create the summary; link the plans, set
`completed`, stamp `completed_at` and `processing_time_seconds`; fetch the
user's progress (raises when missing) and mark `plan_generation` completed.
An `Except.error` is an exception escaping the block: every write above is
rolled back. -/
def run_generation (failAt : Option Nat) (now : Nat) (s : Sys)
    (g : PlanGeneration) : Except String Sys :=
  let g1 := { g with status := "processing", started_at := some now }
  let s1 := { s with job := some g1 }
  if fail_on failAt 0 then Except.error "plan assembly failed"
  else if fail_on failAt 1 then Except.error "workout plan creation failed"
  else
    let wId := s1.workout_plans
    let s2 := { s1 with workout_plans := s1.workout_plans + 1 }
    if fail_on failAt 2 then Except.error "diet plan creation failed"
    else
      let dId := s2.diet_plans
      let s3 := { s2 with diet_plans := s2.diet_plans + 1 }
      if fail_on failAt 3 then Except.error "plan summary creation failed"
      else
        let s4 := { s3 with summaries := s3.summaries + 1 }
        let g2 := { g1 with
                    workout_plan := some wId
                    diet_plan := some dId
                    status := "completed"
                    completed_at := some now
                    processing_time_seconds := some (now - now) }
        let s5 := { s4 with job := some g2 }
        match s5.progress with
        | none => Except.error "UserProgress matching query does not exist."
        | some p =>
          Except.ok { s5 with progress := some (p.mark_step_completed "plan_generation") }

/-- `PlanGenerationService.generate_user_plan` (`plan/services.py` lines
283-385).  The job row is fetched under `select_for_update` inside one
transaction; a missing row, or a status other than `queued`, is a no-op
returning `False`.  Any exception inside the block rolls the block back and
the handler re-fetches the job and marks it `failed` with the exception
text and a fresh `completed_at`. -/
def generate_user_plan (failAt : Option Nat) (now : Nat) (s : Sys) : Bool × Sys :=
  match s.job with
  | none => (false, s)
  | some g =>
    if g.status == "queued" then
      match run_generation failAt now s g with
      | Except.ok s' => (true, s')
      | Except.error e =>
        (false, { s with job := some { g with
                    status := "failed"
                    error_message := e
                    completed_at := some now } })
    else (false, s)

-- ===== the celery task (plan/tasks.py) =====

/-- The retry-exhaustion handler of `generate_user_plan_async`
(`plan/tasks.py` lines 28-36): re-fetch the job and overwrite `status` and
`error_message`; the exception text is always
`"Plan generation failed"` because the service swallows its own errors and
the task raises that fixed message whenever the service returns `False`. -/
def task_exhaust_write (s : Sys) : Sys :=
  match s.job with
  | none => s
  | some g => { s with job := some { g with
                  status := "failed"
                  error_message := "Max retries exceeded: Plan generation failed" } }

/-- The attempt loop of `generate_user_plan_async` (`plan/tasks.py` lines
6-38).  `r` is `self.request.retries`, the celery-maintained count of
re-deliveries (`max_retries=3` from the decorator); `failAt r` injects the
assembly failure for attempt `r`.  Returns the final state and the list of
backoff countdowns (`60 * 2 ** retries`) of the re-deliveries performed.
`fuel` bounds the recursion; any `fuel ≥ 4 - r` is exact. -/
def task_loop (failAt : Nat → Option Nat) (now : Nat) :
    Nat → Nat → Sys → Sys × List Nat
  | 0, _, s => (s, [])
  | fuel + 1, r, s =>
    let res := generate_user_plan (failAt r) now s
    if res.1 then (res.2, [])
    else if r < 3 then
      match task_loop failAt now fuel (r + 1) res.2 with
      | (sf, cds) => (sf, 60 * 2 ^ r :: cds)
    else (task_exhaust_write res.2, [])

/-- `generate_user_plan_async` delivered once and allowed to run through all
of its automatic retries. -/
def generate_user_plan_async (failAt : Nat → Option Nat) (now : Nat) (s : Sys) :
    Sys × List Nat :=
  task_loop failAt now 4 0 s

-- ===== the exposed operation alphabet =====

/-- One exposed operation on a user's state, at the granularity of one
database transaction (respectively one autocommit write). -/
inductive Op where
  | getOrCreate : Op
  | markStep : String → Op
  | enqueue : Nat → Op
  | retryJob : Nat → Op
  | cancel : Op
  | worker : Option Nat → Nat → Op
  | taskExhaust : Op
deriving DecidableEq

/-- The state transformation of one operation (caller-visible errors
dropped). -/
def Op.step : Op → Sys → Sys
  | Op.getOrCreate, s => user_progress_get s
  | Op.markStep st, s => { s with progress := s.progress.map (fun p => p.mark_step_completed st) }
  | Op.enqueue now, s => (plan_generation_post now s).1
  | Op.retryJob now, s => (retry_plan_generation now s).1
  | Op.cancel, s => (cancel_plan_generation s).1
  | Op.worker failAt now, s => (generate_user_plan failAt now s).2
  | Op.taskExhaust, s => task_exhaust_write s

/-- Run a sequence of operations. -/
def run_ops : List Op → Sys → Sys
  | [], s => s
  | o :: os, s => run_ops os (o.step s)

-- ===== characterization lemmas =====

theorem can_retry_iff (g : PlanGeneration) :
    g.can_retry = true ↔ (g.status = "failed" ∧ g.retry_count < g.max_retries) := by
  simp [PlanGeneration.can_retry, and_comm]

/-- The completed job produced by a successful run of the worker
transaction body. -/
def completed_job (now : Nat) (s : Sys) (g : PlanGeneration) : PlanGeneration :=
  { g with
    status := "completed"
    started_at := some now
    completed_at := some now
    workout_plan := some s.workout_plans
    diet_plan := some s.diet_plans
    processing_time_seconds := some (now - now) }

/-- The state committed by a successful run of the worker transaction body. -/
def completed_sys (now : Nat) (s : Sys) (g : PlanGeneration) (p : UserProgress) : Sys :=
  { s with
    job := some (completed_job now s g)
    workout_plans := s.workout_plans + 1
    diet_plans := s.diet_plans + 1
    summaries := s.summaries + 1
    progress := some (p.mark_step_completed "plan_generation") }

/-- The job rewritten by the worker's exception handler. -/
def failed_job (now : Nat) (g : PlanGeneration) (e : String) : PlanGeneration :=
  { g with
    status := "failed"
    error_message := e
    completed_at := some now }

theorem run_generation_ok (failAt : Option Nat) (now : Nat) (s : Sys)
    (g : PlanGeneration) (s' : Sys)
    (h : run_generation failAt now s g = Except.ok s') :
    ∃ p, s.progress = some p ∧ s' = completed_sys now s g p := by
  unfold run_generation at h
  by_cases h0 : fail_on failAt 0 = true
  · rw [if_pos h0] at h; simp at h
  rw [if_neg h0] at h
  by_cases h1 : fail_on failAt 1 = true
  · rw [if_pos h1] at h; simp at h
  rw [if_neg h1] at h
  by_cases h2 : fail_on failAt 2 = true
  · rw [if_pos h2] at h; simp at h
  rw [if_neg h2] at h
  by_cases h3 : fail_on failAt 3 = true
  · rw [if_pos h3] at h; simp at h
  rw [if_neg h3] at h
  cases hp : s.progress with
  | none =>
    rw [show ({ s with job := some { { g with status := "processing", started_at := some now } with
          workout_plan := some s.workout_plans
          diet_plan := some s.diet_plans
          status := "completed"
          completed_at := some now
          processing_time_seconds := some (now - now) } } : Sys).progress = s.progress from rfl,
      hp] at h
    simp at h
  | some p =>
    rw [show ({ s with job := some { { g with status := "processing", started_at := some now } with
          workout_plan := some s.workout_plans
          diet_plan := some s.diet_plans
          status := "completed"
          completed_at := some now
          processing_time_seconds := some (now - now) } } : Sys).progress = s.progress from rfl,
      hp] at h
    simp only [Except.ok.injEq] at h
    exact ⟨p, rfl, h.symm⟩

theorem generate_user_plan_spec (failAt : Option Nat) (now : Nat) (s : Sys) :
    (s.job = none ∧ generate_user_plan failAt now s = (false, s)) ∨
    (∃ g, s.job = some g ∧ g.status ≠ "queued" ∧
      generate_user_plan failAt now s = (false, s)) ∨
    (∃ g e, s.job = some g ∧ g.status = "queued" ∧
      run_generation failAt now s g = Except.error e ∧
      generate_user_plan failAt now s = (false, { s with job := some (failed_job now g e) })) ∨
    (∃ g p, s.job = some g ∧ g.status = "queued" ∧
      run_generation failAt now s g = Except.ok (completed_sys now s g p) ∧
      s.progress = some p ∧
      generate_user_plan failAt now s = (true, completed_sys now s g p)) := by
  cases hj : s.job with
  | none => exact Or.inl ⟨rfl, by simp [generate_user_plan, hj]⟩
  | some g =>
    rcases eq_or_ne g.status "queued" with hst | hst
    · have hb : (g.status == "queued") = true := by simp [hst]
      cases hr : run_generation failAt now s g with
      | ok s' =>
        obtain ⟨p, hp, hs'⟩ := run_generation_ok failAt now s g s' hr
        subst hs'
        exact Or.inr (Or.inr (Or.inr ⟨g, p, rfl, hst, hr, hp,
          by simp [generate_user_plan, hj, hb, hr]⟩))
      | error e =>
        exact Or.inr (Or.inr (Or.inl ⟨g, e, rfl, hst, hr,
          by simp [generate_user_plan, hj, hb, hr, failed_job]⟩))
    · have hb : (g.status == "queued") = false := by simp [hst]
      exact Or.inr (Or.inl ⟨g, rfl, hst, by simp [generate_user_plan, hj, hb]⟩)

theorem plan_generation_post_spec (now : Nat) (s : Sys) :
    ((plan_generation_post now s).1 = s ∧ ((plan_generation_post now s).2).isSome = true ∧
      ¬(s.has_completed_goal = true ∧ s.has_completed_payment = true ∧ s.job = none ∧
        s.progress.isSome = true)) ∨
    (∃ p, s.progress = some p ∧ s.has_completed_goal = true ∧
      s.has_completed_payment = true ∧ s.job = none ∧
      plan_generation_post now s =
        ({ s with
           job := some (new_plan_generation now)
           progress := some (p.mark_step_completed "payment_completed") }, none)) := by
  by_cases hg : s.has_completed_goal = true
  · by_cases hp : s.has_completed_payment = true
    · cases hj : s.job with
      | some g =>
        refine Or.inl ⟨?_, ?_, ?_⟩
        · simp [plan_generation_post, hg, hp, hj]
        · simp [plan_generation_post, hg, hp, hj]
        · rintro ⟨-, -, hjn, -⟩; simp at hjn
      | none =>
        cases hpr : s.progress with
        | none =>
          refine Or.inl ⟨?_, ?_, ?_⟩
          · simp [plan_generation_post, hg, hp, hj, hpr]
          · simp [plan_generation_post, hg, hp, hj, hpr]
          · rintro ⟨-, -, -, hps⟩; simp at hps
        | some p =>
          exact Or.inr ⟨p, rfl, hg, hp, rfl,
            by simp [plan_generation_post, hg, hp, hj, hpr]⟩
    · refine Or.inl ⟨?_, ?_, ?_⟩
      · simp [plan_generation_post, hg, hp]
      · simp [plan_generation_post, hg, hp]
      · rintro ⟨-, hpy, -, -⟩; exact hp hpy
  · refine Or.inl ⟨?_, ?_, ?_⟩
    · simp [plan_generation_post, hg]
    · simp [plan_generation_post, hg]
    · rintro ⟨hgl, -, -, -⟩; exact hg hgl

theorem cancel_spec (s : Sys) :
    ((cancel_plan_generation s).1 = s ∧ ((cancel_plan_generation s).2).isSome = true) ∨
    (∃ g, s.job = some g ∧ cancel_status_check g = true ∧ s.has_completed_goal = true ∧
      (cancel_plan_generation s).1 =
        { s with
          job := some { g with status := "cancelled" }
          progress := s.progress.map
            (fun p => { p with current_step := "payment_completed" }) }) := by
  by_cases hg : s.has_completed_goal = true
  · cases hj : s.job with
    | none => exact Or.inl (by simp [cancel_plan_generation, hg, hj])
    | some g =>
      by_cases hc : cancel_status_check g = true
      · refine Or.inr ⟨g, rfl, hc, hg, ?_⟩
        cases hpr : s.progress with
        | none => simp [cancel_plan_generation, hg, hj, hc, hpr]
        | some p => simp [cancel_plan_generation, hg, hj, hc, hpr]
      · exact Or.inl (by simp [cancel_plan_generation, hg, hj, hc])
  · exact Or.inl (by simp [cancel_plan_generation, hg])

theorem retry_spec (now : Nat) (s : Sys) :
    ((retry_plan_generation now s).1 = s ∧ ((retry_plan_generation now s).2).isSome = true ∧
      ∀ g, s.job = some g → g.can_retry = false) ∨
    (∃ g, s.job = some g ∧ g.can_retry = true ∧
      retry_plan_generation now s =
        ({ s with job := some { g with
            status := "queued"
            queued_at := some now
            error_message := ""
            retry_count := g.retry_count + 1 } }, none)) := by
  cases hj : s.job with
  | none =>
    refine Or.inl ⟨by simp [retry_plan_generation, hj], by simp [retry_plan_generation, hj], ?_⟩
    intro g hg; simp at hg
  | some g =>
    by_cases hc : g.can_retry = true
    · exact Or.inr ⟨g, rfl, hc, by simp [retry_plan_generation, hj, hc]⟩
    · refine Or.inl ⟨by simp [retry_plan_generation, hj, hc],
        by simp [retry_plan_generation, hj, hc], ?_⟩
      intro g' hg'
      obtain rfl : g = g' := by injection hg'
      simpa using hc

-- ===== retry_count bound invariant =====

/-- `retry_count` is within its bound on the (at most one) job row. -/
def retry_bound (s : Sys) : Prop :=
  ∀ g, s.job = some g → g.retry_count ≤ g.max_retries

theorem user_progress_get_job (s : Sys) : (user_progress_get s).job = s.job := by
  unfold user_progress_get
  cases s.progress <;> rfl

theorem op_retry_bound (o : Op) (s : Sys) (h : retry_bound s) :
    retry_bound (Op.step o s) := by
  cases o with
  | getOrCreate =>
    intro g hg
    rw [Op.step, user_progress_get_job] at hg
    exact h g hg
  | markStep st => exact h
  | enqueue now =>
    rcases plan_generation_post_spec now s with ⟨h1, -, -⟩ | ⟨p, -, -, -, -, heq⟩
    · intro g hg; rw [Op.step, h1] at hg; exact h g hg
    · intro g hg
      rw [Op.step, heq] at hg
      simp only [Option.some.injEq] at hg
      rw [← hg]
      show (0 : Nat) ≤ 3
      decide
  | retryJob now =>
    rcases retry_spec now s with ⟨h1, -, -⟩ | ⟨g0, hj, hc, heq⟩
    · intro g hg; rw [Op.step, h1] at hg; exact h g hg
    · intro g hg
      rw [Op.step, heq] at hg
      simp only [Option.some.injEq] at hg
      rw [← hg]
      exact ((can_retry_iff g0).mp hc).2
  | cancel =>
    rcases cancel_spec s with ⟨h1, -⟩ | ⟨g0, hj, -, -, heq⟩
    · intro g hg; rw [Op.step, h1] at hg; exact h g hg
    · intro g hg
      rw [Op.step, heq] at hg
      simp only [Option.some.injEq] at hg
      rw [← hg]
      exact h g0 hj
  | worker failAt now =>
    rcases generate_user_plan_spec failAt now s with
      ⟨-, heq⟩ | ⟨g0, -, -, heq⟩ | ⟨g0, e, hj, -, -, heq⟩ | ⟨g0, p, hj, -, -, -, heq⟩
    · intro g hg
      rw [Op.step, show (generate_user_plan failAt now s).2 = s from by rw [heq]] at hg
      exact h g hg
    · intro g hg
      rw [Op.step, show (generate_user_plan failAt now s).2 = s from by rw [heq]] at hg
      exact h g hg
    · intro g hg
      rw [Op.step, show (generate_user_plan failAt now s).2 =
        { s with job := some (failed_job now g0 e) } from by rw [heq]] at hg
      simp only [Option.some.injEq] at hg
      rw [← hg]
      exact h g0 hj
    · intro g hg
      rw [Op.step, show (generate_user_plan failAt now s).2 =
        completed_sys now s g0 p from by rw [heq]] at hg
      simp only [completed_sys, Option.some.injEq] at hg
      rw [← hg]
      exact h g0 hj
  | taskExhaust =>
    intro g hg
    rw [Op.step] at hg
    unfold task_exhaust_write at hg
    cases hj : s.job with
    | none => rw [hj] at hg; exact h g hg
    | some g0 =>
      rw [hj] at hg
      simp only [Option.some.injEq] at hg
      rw [← hg]
      exact h g0 hj

theorem run_ops_retry_bound (ops : List Op) (s : Sys) (h : retry_bound s) :
    retry_bound (run_ops ops s) := by
  induction ops generalizing s with
  | nil => exact h
  | cons o os ih => exact ih (Op.step o s) (op_retry_bound o s h)

-- ===== example states =====

/-- A fresh user: no progress row yet, no job; the two external lookups are
parameters. -/
def sys0 (goal payment : Bool) : Sys :=
  { progress := none, has_completed_goal := goal, has_completed_payment := payment,
    job := none, workout_plans := 0, diet_plans := 0, summaries := 0 }

/-- A user who reached plan generation: progress marked through
`payment_completed`. -/
def progress_pc : UserProgress :=
  ⟨"plan_generation",
   ["goal_selection", "questionnaire", "payment_pending", "payment_completed"]⟩

/-- A job row already cancelled (a terminal status). -/
def job_cancelled : PlanGeneration := { new_plan_generation 1 with status := "cancelled" }

/-- A failed job row with one manual retry used. -/
def job_failed1 : PlanGeneration :=
  { new_plan_generation 1 with status := "failed", retry_count := 1, error_message := "boom" }

/-- State with a cancelled job and full preconditions. -/
def sys_cancelled : Sys :=
  { progress := some progress_pc, has_completed_goal := true, has_completed_payment := true,
    job := some job_cancelled, workout_plans := 0, diet_plans := 0, summaries := 0 }

/-- State with a queued job and full preconditions. -/
def sys_queued : Sys :=
  { progress := some progress_pc, has_completed_goal := true, has_completed_payment := true,
    job := some (new_plan_generation 1), workout_plans := 0, diet_plans := 0, summaries := 0 }

/-- State with progress created, full preconditions, and no job yet. -/
def sys_ready : Sys :=
  { progress := some ⟨"payment_pending", ["goal_selection", "questionnaire"]⟩,
    has_completed_goal := true, has_completed_payment := true,
    job := none, workout_plans := 0, diet_plans := 0, summaries := 0 }

/-- State with a failed job and full preconditions. -/
def sys_failed1 : Sys :=
  { progress := some progress_pc, has_completed_goal := true, has_completed_payment := true,
    job := some job_failed1, workout_plans := 0, diet_plans := 0, summaries := 0 }

-- ===== C3 =====

/-- C3 (confirmed): the manual retry succeeds exactly when the job is
`failed` with `retry_count < max_retries`; on success it resets the status
to `queued`, re-stamps `queued_at`, clears `error_message` and increments
`retry_count`; otherwise it surfaces an error and changes nothing.  And
`retry_count ≤ max_retries` is preserved by every sequence of exposed
operations (a freshly enqueued job starts at 0 of 3). -/
theorem C3_manual_retry (now : Nat) (s : Sys) (g : PlanGeneration)
    (hj : s.job = some g) :
    (((retry_plan_generation now s).2 = none) ↔
      (g.status = "failed" ∧ g.retry_count < g.max_retries)) ∧
    (g.can_retry = true → retry_plan_generation now s =
      ({ s with job := some { g with
          status := "queued"
          queued_at := some now
          error_message := ""
          retry_count := g.retry_count + 1 } }, none)) ∧
    (g.can_retry = false →
      (retry_plan_generation now s).1 = s ∧
      ((retry_plan_generation now s).2).isSome = true) ∧
    (∀ (ops : List Op) (s0 : Sys), retry_bound s0 → retry_bound (run_ops ops s0)) := by
  refine ⟨?_, ?_, ?_, fun ops s0 h => run_ops_retry_bound ops s0 h⟩
  · rw [← can_retry_iff]
    by_cases hc : g.can_retry = true
    · simp [retry_plan_generation, hj, hc]
    · simp [retry_plan_generation, hj, hc]
  · intro hc
    simp [retry_plan_generation, hj, hc]
  · intro hc
    constructor <;> simp [retry_plan_generation, hj, hc]

/-- C3 witness: a failed job with `retry_count = 1 < 3` retries
successfully; the invariant transports across a concrete operation
sequence. -/
theorem C3_witness :
    (((retry_plan_generation 9 sys_failed1).2 = none) ↔
      (job_failed1.status = "failed" ∧ job_failed1.retry_count < job_failed1.max_retries)) ∧
    (job_failed1.can_retry = true → retry_plan_generation 9 sys_failed1 =
      ({ sys_failed1 with job := some { job_failed1 with
          status := "queued"
          queued_at := some 9
          error_message := ""
          retry_count := job_failed1.retry_count + 1 } }, none)) ∧
    (job_failed1.can_retry = false →
      (retry_plan_generation 9 sys_failed1).1 = sys_failed1 ∧
      ((retry_plan_generation 9 sys_failed1).2).isSome = true) ∧
    (∀ (ops : List Op) (s0 : Sys), retry_bound s0 → retry_bound (run_ops ops s0)) :=
  C3_manual_retry 9 sys_failed1 job_failed1 rfl

-- ===== C4 =====

/-- C4 (corrected): with the user's progress row present, the enqueue
succeeds exactly when a completed questionnaire exists, a completed payment
exists, and there is **no `PlanGeneration` row at all** for the (user, goal)
pair — the source guard is `hasattr(user_goal, 'plan_generation')`, which
also rejects terminal (completed / failed / cancelled) jobs, not only
non-terminal ones.  On success a `queued` job is created with `queued_at`
stamped; every rejection surfaces an error and mutates nothing. -/
theorem C4_enqueue_guard (now : Nat) (s : Sys) (hp : s.progress.isSome = true) :
    (((plan_generation_post now s).2 = none) ↔
      (s.has_completed_goal = true ∧ s.has_completed_payment = true ∧ s.job = none)) ∧
    (((plan_generation_post now s).2 = none) →
      ∃ p, s.progress = some p ∧
        plan_generation_post now s =
          ({ s with
             job := some (new_plan_generation now)
             progress := some (p.mark_step_completed "payment_completed") }, none)) ∧
    (((plan_generation_post now s).2).isSome = true →
      (plan_generation_post now s).1 = s) := by
  rcases plan_generation_post_spec now s with ⟨h1, h2, h3⟩ | ⟨p, hpr, hg, hpy, hj, heq⟩
  · refine ⟨?_, ?_, fun _ => h1⟩
    · constructor
      · intro hn; rw [hn] at h2; cases h2
      · intro ⟨a, b, c⟩; exact absurd ⟨a, b, c, hp⟩ h3
    · intro hn; rw [hn] at h2; cases h2
  · refine ⟨?_, ?_, ?_⟩
    · rw [heq]; simp [hg, hpy, hj]
    · intro _; exact ⟨p, hpr, heq⟩
    · intro hs; rw [heq] at hs; cases hs

/-- C4 counterexample: all of the claim's preconditions hold — completed
questionnaire, completed payment, and no non-terminal job (the only job row
is `cancelled`) — yet the enqueue is rejected with
"Plan generation already exists" and nothing is created. -/
theorem C4_counterexample :
    sys_cancelled.has_completed_goal = true ∧
    sys_cancelled.has_completed_payment = true ∧
    (∀ g, sys_cancelled.job = some g →
      g.status ≠ "queued" ∧ g.status ≠ "processing") ∧
    (plan_generation_post 3 sys_cancelled).2 = some "Plan generation already exists" ∧
    (plan_generation_post 3 sys_cancelled).1 = sys_cancelled := by
  decide

/-- C4 witness: a user with progress, goal, payment and no job enqueues
successfully. -/
theorem C4_witness :
    (((plan_generation_post 3 (sys_ready)).2 = none) ↔
      ((sys_ready).has_completed_goal = true ∧
       (sys_ready).has_completed_payment = true ∧ (sys_ready).job = none)) ∧
    (((plan_generation_post 3 (sys_ready)).2 = none) →
      ∃ p, (sys_ready).progress = some p ∧
        plan_generation_post 3 (sys_ready) =
          ({ (sys_ready) with
             job := some (new_plan_generation 3)
             progress := some (p.mark_step_completed "payment_completed") }, none)) ∧
    (((plan_generation_post 3 (sys_ready)).2).isSome = true →
      (plan_generation_post 3 (sys_ready)).1 = sys_ready) :=
  C4_enqueue_guard 3 (sys_ready) (by decide)

-- ===== C5 =====

/-- C5 (code_bug): at the service level the losing claimant is indeed a
silent no-op — `generate_user_plan` on the cancelled job returns `False`
leaving the state untouched — but the celery task treats that `False` as a
generation failure: it re-raises, retries three times with backoff, and its
exhaustion handler then **overwrites the job** to `failed` with
"Max retries exceeded: Plan generation failed".  A job that is not `queued`
at claim time therefore does not keep its status once the task is allowed
to run to exhaustion. -/
theorem C5_nonqueued_claim_is_no_op_but_task_marks_failed :
    generate_user_plan none 7 sys_cancelled = (false, sys_cancelled) ∧
    (generate_user_plan_async (fun _ => none) 7 sys_cancelled).1.job =
      some { job_cancelled with
             status := "failed"
             error_message := "Max retries exceeded: Plan generation failed" } ∧
    (generate_user_plan_async (fun _ => none) 7 sys_cancelled).2 = [60, 120, 240] := by
  decide

-- ===== C6 =====

/-- C6 (confirmed): the worker's Complete step is all-or-nothing.  From a
`queued` job, either the run succeeds and commits everything at once (both
plan rows persisted and linked, status `completed`, `completed_at` stamped,
progress advanced — the shape `completed_sys`), or it fails at any injected
point and nothing is committed except the exception handler's `failed` mark
on the otherwise unchanged state; a job exposed as `completed` by the worker
always carries both plan links. -/
theorem C6_complete_all_or_nothing (failAt : Option Nat) (now : Nat) (s : Sys)
    (g : PlanGeneration) (hj : s.job = some g) (hst : g.status = "queued") :
    ((generate_user_plan failAt now s).1 = true →
      ∃ p, s.progress = some p ∧
        (generate_user_plan failAt now s).2 = completed_sys now s g p) ∧
    ((generate_user_plan failAt now s).1 = false →
      ∃ e, (generate_user_plan failAt now s).2 =
        { s with job := some (failed_job now g e) }) ∧
    (∀ g', ((generate_user_plan failAt now s).2).job = some g' →
      g'.status = "completed" →
      g'.workout_plan.isSome = true ∧ g'.diet_plan.isSome = true ∧
      ((generate_user_plan failAt now s).2).workout_plans = s.workout_plans + 1 ∧
      ((generate_user_plan failAt now s).2).diet_plans = s.diet_plans + 1) := by
  rcases generate_user_plan_spec failAt now s with
    ⟨hn, -⟩ | ⟨g0, hj0, hst0, -⟩ | ⟨g0, e, hj0, -, -, heq⟩ | ⟨g0, p, hj0, -, -, hp, heq⟩
  · rw [hj] at hn; cases hn
  · rw [hj] at hj0
    obtain rfl : g = g0 := by injection hj0
    exact absurd hst hst0
  · rw [hj] at hj0
    obtain rfl : g = g0 := by injection hj0
    refine ⟨?_, ?_, ?_⟩
    · intro h1; rw [heq] at h1; cases h1
    · intro _; exact ⟨e, by rw [heq]⟩
    · intro g' hg' hst'
      rw [show (generate_user_plan failAt now s).2 =
        { s with job := some (failed_job now g e) } from by rw [heq]] at hg'
      simp only [Option.some.injEq] at hg'
      rw [← hg'] at hst'
      simp [failed_job] at hst'
  · rw [hj] at hj0
    obtain rfl : g = g0 := by injection hj0
    refine ⟨?_, ?_, ?_⟩
    · intro _; exact ⟨p, hp, by rw [heq]⟩
    · intro h1; rw [heq] at h1; cases h1
    · intro g' hg' hst'
      rw [show (generate_user_plan failAt now s).2 =
        completed_sys now s g p from by rw [heq]] at hg'
      simp only [completed_sys, Option.some.injEq] at hg'
      rw [show (generate_user_plan failAt now s).2 =
        completed_sys now s g p from by rw [heq]]
      rw [← hg']
      simp [completed_job, completed_sys]

/-- C6 witness: the successful path and the diet-plan-creation-failure path
both evaluated on a concrete queued job. -/
theorem C6_witness :
    ((generate_user_plan (some 2) 7 sys_queued).1 = true →
      ∃ p, sys_queued.progress = some p ∧
        (generate_user_plan (some 2) 7 sys_queued).2 =
          completed_sys 7 sys_queued (new_plan_generation 1) p) ∧
    ((generate_user_plan (some 2) 7 sys_queued).1 = false →
      ∃ e, (generate_user_plan (some 2) 7 sys_queued).2 =
        { sys_queued with job := some (failed_job 7 (new_plan_generation 1) e) }) ∧
    (∀ g', ((generate_user_plan (some 2) 7 sys_queued).2).job = some g' →
      g'.status = "completed" →
      g'.workout_plan.isSome = true ∧ g'.diet_plan.isSome = true ∧
      ((generate_user_plan (some 2) 7 sys_queued).2).workout_plans =
        sys_queued.workout_plans + 1 ∧
      ((generate_user_plan (some 2) 7 sys_queued).2).diet_plans =
        sys_queued.diet_plans + 1) :=
  C6_complete_all_or_nothing (some 2) 7 sys_queued (new_plan_generation 1) rfl rfl

-- ===== C7 =====

/-- The lost-update interleaving that the transaction-free cancel view
permits: the view's status check reads the job row while it is still
`queued`; the worker's transaction (which holds the row lock from claim
through Complete) then commits the completed job; the view's write half
finally executes its already-justified update, overwriting the result. -/
def cancel_after_worker_race (failAt : Option Nat) (now : Nat) (s : Sys) : Sys :=
  if !s.has_completed_goal then s
  else
    match s.job with
    | none => s
    | some g =>
      let checked := cancel_status_check g
      let s1 := (generate_user_plan failAt now s).2
      if checked then cancel_write s1 else s1

/-- C7 (code_bug): the worker never re-checks for cancellation before its
Complete step, and the cancel view's check and write are separate
autocommit statements.  In the realizable interleaving `check / worker
transaction / write` starting from a queued job, the final status is
`cancelled` as the claim demands, but the workout- and diet-plan rows
created by the Complete step survive and stay linked to the job —
"no plan rows created" fails. -/
theorem C7_cancel_race_leaves_plan_rows :
    cancel_status_check (new_plan_generation 1) = true ∧
    (cancel_after_worker_race none 7 sys_queued).job.map PlanGeneration.status =
      some "cancelled" ∧
    (cancel_after_worker_race none 7 sys_queued).workout_plans = 1 ∧
    (cancel_after_worker_race none 7 sys_queued).diet_plans = 1 ∧
    (cancel_after_worker_race none 7 sys_queued).job.map PlanGeneration.workout_plan =
      some (some 0) ∧
    (cancel_after_worker_race none 7 sys_queued).job.map PlanGeneration.diet_plan =
      some (some 0) := by
  decide

-- ===== C9 =====

/-- Does the first character list start the second? -/
def chStarts : List Char → List Char → Bool
  | [], _ => true
  | _ :: _, [] => false
  | a :: as, b :: bs => a == b && chStarts as bs

/-- Does the first character list occur inside the second? -/
def chFind : List Char → List Char → Bool
  | n, [] => chStarts n []
  | n, b :: bs => chStarts n (b :: bs) || chFind n bs

/-- Substring test on strings (needle occurs in haystack). -/
def str_contains (hay needle : String) : Bool := chFind needle.toList hay.toList

theorem generate_user_plan_assembly_throws (f : Nat → Option Nat) (now : Nat)
    (s : Sys) (g : PlanGeneration) (hj : s.job = some g) (hst : g.status = "queued")
    (hf : f 0 = some 0) :
    generate_user_plan (f 0) now s =
      (false, { s with job := some (failed_job now g "plan assembly failed") }) := by
  have hb : (g.status == "queued") = true := by simp [hst]
  rw [hf]
  simp [generate_user_plan, hj, hb, run_generation, fail_on, failed_job]

theorem generate_user_plan_failed_no_op (fa : Option Nat) (now now' : Nat)
    (s : Sys) (g : PlanGeneration) (e : String) :
    generate_user_plan fa now'
      ({ s with job := some (failed_job now g e) }) =
      (false, { s with job := some (failed_job now g e) }) := by
  simp [generate_user_plan, failed_job]

/-- C9 (corrected): when the plan-assembly call throws on the first
delivery, the task re-attempts the job exactly three more times with the
exponential backoff countdowns `60 * 2 ^ 0, 60 * 2 ^ 1, 60 * 2 ^ 2`, then
marks the job `failed`; the recorded `error_message` is
`"Max retries exceeded: Plan generation failed"` — it contains
"Max retries exceeded", not the claim's literal "max attempts exceeded" —
and none of these automatic attempts changes the manual `retry_count` (or
`max_retries`, or the user's progress). -/
theorem C9_auto_retry_backoff (f : Nat → Option Nat) (now : Nat) (s : Sys)
    (g : PlanGeneration) (hj : s.job = some g) (hst : g.status = "queued")
    (hf : f 0 = some 0) :
    (generate_user_plan_async f now s).2 = [60 * 2 ^ 0, 60 * 2 ^ 1, 60 * 2 ^ 2] ∧
    ∃ g', (generate_user_plan_async f now s).1.job = some g' ∧
      g'.status = "failed" ∧
      g'.error_message = "Max retries exceeded: Plan generation failed" ∧
      str_contains g'.error_message "Max retries exceeded" = true ∧
      g'.retry_count = g.retry_count ∧ g'.max_retries = g.max_retries ∧
      (generate_user_plan_async f now s).1.progress = s.progress := by
  have h1 := generate_user_plan_assembly_throws f now s g hj hst hf
  have h2 := fun fa now' => generate_user_plan_failed_no_op fa now now' s g
    "plan assembly failed"
  unfold generate_user_plan_async
  simp only [task_loop, h1, h2]
  norm_num
  refine ⟨{ failed_job now g "plan assembly failed" with
            status := "failed"
            error_message := "Max retries exceeded: Plan generation failed" },
          ?_, rfl, rfl,
          by show str_contains "Max retries exceeded: Plan generation failed"
               "Max retries exceeded" = true
             decide,
          ?_, ?_, ?_⟩
  · simp [task_exhaust_write]
  · simp [failed_job]
  · simp [failed_job]
  · simp [task_exhaust_write]

/-- C9 counterexample: the message actually recorded after exhaustion is
"Max retries exceeded: Plan generation failed"; the claim's literal
"max attempts exceeded" does not occur in it. -/
theorem C9_counterexample :
    (generate_user_plan_async (fun _ => some 0) 7 sys_queued).1.job.map
        PlanGeneration.error_message =
      some "Max retries exceeded: Plan generation failed" ∧
    str_contains "Max retries exceeded: Plan generation failed"
        "max attempts exceeded" = false := by
  decide

/-- C9 witness: the amended claim evaluated with the assembly throwing on a
concrete queued job. -/
theorem C9_witness :
    (generate_user_plan_async (fun _ => some 0) 7 sys_queued).2 =
      [60 * 2 ^ 0, 60 * 2 ^ 1, 60 * 2 ^ 2] ∧
    ∃ g', (generate_user_plan_async (fun _ => some 0) 7 sys_queued).1.job = some g' ∧
      g'.status = "failed" ∧
      g'.error_message = "Max retries exceeded: Plan generation failed" ∧
      str_contains g'.error_message "Max retries exceeded" = true ∧
      g'.retry_count = (new_plan_generation 1).retry_count ∧
      g'.max_retries = (new_plan_generation 1).max_retries ∧
      (generate_user_plan_async (fun _ => some 0) 7 sys_queued).1.progress =
        sys_queued.progress :=
  C9_auto_retry_backoff (fun _ => some 0) 7 sys_queued (new_plan_generation 1)
    rfl rfl rfl

-- ===== C1 machinery =====

theorem mark_cur_key (p : UserProgress) (st nxt : String)
    (h : step_progression st = some nxt) :
    (p.mark_step_completed st).current_step = nxt := by
  unfold UserProgress.mark_step_completed
  rw [h]

theorem mark_cur_unrec (p : UserProgress) (st : String)
    (h : step_progression st = none) :
    (p.mark_step_completed st).current_step = p.current_step := by
  unfold UserProgress.mark_step_completed
  rw [h]

theorem mark_append (p : UserProgress) (st : String) :
    ∃ t, (p.mark_step_completed st).completed_steps = p.completed_steps ++ t := by
  unfold UserProgress.mark_step_completed
  by_cases h : st ∈ p.completed_steps
  · refine ⟨[], ?_⟩
    cases step_progression st <;> simp [h]
  · refine ⟨[st], ?_⟩
    cases step_progression st <;> simp [h]

/-- The progress step recorded as completed by an operation, when it marks
one: an explicit `mark_step_completed` of a progression-table key on an
existing row, a successful enqueue (which marks `payment_completed`), or a
successful worker run (which marks `plan_generation`). -/
def op_mark (o : Op) (s : Sys) : Option String :=
  match o with
  | Op.markStep st =>
    if s.progress.isSome && (step_progression st).isSome then some st else none
  | Op.enqueue now =>
    if ((plan_generation_post now s).2).isNone then some "payment_completed" else none
  | Op.worker failAt now =>
    if (generate_user_plan failAt now s).1 then some "plan_generation" else none
  | _ => none

/-- Most-recent mark update. -/
def upd_mark (n m : Option String) : Option String :=
  match n with
  | some st => some st
  | none => m

/-- Run a sequence of operations while tracking the most recently marked
progression-table key. -/
def run_marks : List Op → Sys → Option String → Sys × Option String
  | [], s, m => (s, m)
  | o :: os, s, m => run_marks os (Op.step o s) (upd_mark (op_mark o s) m)

/-- The funnel position dictated by the most recently marked key:
its successor in the progression table, or `goal_selection` when nothing
has been marked. -/
def expected_step : Option String → String
  | none => "goal_selection"
  | some st => (step_progression st).getD "goal_selection"

/-- No `cancel` operation in the sequence. -/
def cancel_free : List Op → Bool
  | [] => true
  | Op.cancel :: _ => false
  | _ :: os => cancel_free os

/-- The funnel invariant carried through a cancel-free run: the tracked mark
is always a progression-table key, marks only happen on an existing
progress row, and `current_step` is the mark's successor. -/
def funnel_inv (s : Sys) (m : Option String) : Prop :=
  (∀ st, m = some st → (step_progression st).isSome = true) ∧
  (m.isSome = true → (s.progress).isSome = true) ∧
  (∀ p, s.progress = some p → p.current_step = expected_step m)

theorem op_progress_effect (o : Op) (s : Sys) :
    (Op.step o s).progress = s.progress ∨
    (s.progress = none ∧ (Op.step o s).progress = some progress_default) ∨
    (∃ st, (Op.step o s).progress =
      s.progress.map (fun p => p.mark_step_completed st)) ∨
    (o = Op.cancel ∧ (Op.step o s).progress =
      s.progress.map (fun p => { p with current_step := "payment_completed" })) := by
  cases o with
  | getOrCreate =>
    cases hpr : s.progress with
    | none => exact Or.inr (Or.inl ⟨rfl, by simp [Op.step, user_progress_get, hpr]⟩)
    | some p => exact Or.inl (by simp [Op.step, user_progress_get, hpr])
  | markStep st => exact Or.inr (Or.inr (Or.inl ⟨st, rfl⟩))
  | enqueue now =>
    rcases plan_generation_post_spec now s with ⟨hA, -, -⟩ | ⟨p, hpr, -, -, -, heq⟩
    · exact Or.inl (by rw [Op.step, hA])
    · refine Or.inr (Or.inr (Or.inl ⟨"payment_completed", ?_⟩))
      rw [Op.step, show (plan_generation_post now s).1 =
        { s with
          job := some (new_plan_generation now)
          progress := some (p.mark_step_completed "payment_completed") } from by rw [heq],
        hpr]
      rfl
  | retryJob now =>
    rcases retry_spec now s with ⟨hA, -, -⟩ | ⟨g, -, -, heq⟩
    · exact Or.inl (by rw [Op.step, hA])
    · refine Or.inl ?_
      rw [Op.step, show (retry_plan_generation now s).1 =
        { s with job := some { g with
            status := "queued"
            queued_at := some now
            error_message := ""
            retry_count := g.retry_count + 1 } } from by rw [heq]]
  | cancel =>
    rcases cancel_spec s with ⟨hA, -⟩ | ⟨g, -, -, -, heq⟩
    · exact Or.inl (by rw [Op.step, hA])
    · exact Or.inr (Or.inr (Or.inr ⟨rfl, by rw [Op.step, heq]⟩))
  | worker failAt now =>
    rcases generate_user_plan_spec failAt now s with
      ⟨-, heq⟩ | ⟨g, -, -, heq⟩ | ⟨g, e, -, -, -, heq⟩ | ⟨g, p, -, -, -, hpr, heq⟩
    · exact Or.inl (by rw [Op.step, show (generate_user_plan failAt now s).2 = s
        from by rw [heq]])
    · exact Or.inl (by rw [Op.step, show (generate_user_plan failAt now s).2 = s
        from by rw [heq]])
    · exact Or.inl (by rw [Op.step, show (generate_user_plan failAt now s).2 =
        { s with job := some (failed_job now g e) } from by rw [heq]])
    · refine Or.inr (Or.inr (Or.inl ⟨"plan_generation", ?_⟩))
      rw [Op.step, show (generate_user_plan failAt now s).2 =
        completed_sys now s g p from by rw [heq], hpr]
      rfl
  | taskExhaust =>
    refine Or.inl ?_
    rw [Op.step]
    unfold task_exhaust_write
    cases s.job <;> rfl

theorem op_no_shrink (o : Op) (s : Sys) (p p' : UserProgress)
    (hp : s.progress = some p) (hp' : (Op.step o s).progress = some p') :
    ∃ t, p'.completed_steps = p.completed_steps ++ t := by
  rcases op_progress_effect o s with h | ⟨hn, -⟩ | ⟨st, h⟩ | ⟨-, h⟩
  · rw [h, hp] at hp'
    obtain rfl : p = p' := by injection hp'
    exact ⟨[], by simp⟩
  · rw [hp] at hn; cases hn
  · rw [h, hp] at hp'
    simp only [Option.map_some', Option.some.injEq] at hp'
    rw [← hp']
    exact mark_append p st
  · rw [h, hp] at hp'
    simp only [Option.map_some', Option.some.injEq] at hp'
    rw [← hp']
    exact ⟨[], by simp⟩

theorem op_progress_some (o : Op) (s : Sys) (h : (s.progress).isSome = true) :
    ((Op.step o s).progress).isSome = true := by
  obtain ⟨p, hp⟩ := Option.isSome_iff_exists.mp h
  rcases op_progress_effect o s with h1 | ⟨hn, -⟩ | ⟨st, h1⟩ | ⟨-, h1⟩
  · rw [h1]; exact h
  · rw [hp] at hn; cases hn
  · rw [h1, hp]; rfl
  · rw [h1, hp]; rfl

theorem run_ops_no_shrink (ops : List Op) (s : Sys) (p p' : UserProgress)
    (hp : s.progress = some p) (hp' : (run_ops ops s).progress = some p') :
    ∃ t, p'.completed_steps = p.completed_steps ++ t := by
  induction ops generalizing s p with
  | nil =>
    rw [run_ops, hp] at hp'
    obtain rfl : p = p' := by injection hp'
    exact ⟨[], by simp⟩
  | cons o os ih =>
    have hs : ((Op.step o s).progress).isSome = true :=
      op_progress_some o s (by rw [hp]; rfl)
    obtain ⟨q, hq⟩ := Option.isSome_iff_exists.mp hs
    obtain ⟨t1, ht1⟩ := op_no_shrink o s p q hp hq
    obtain ⟨t2, ht2⟩ := ih (Op.step o s) q hq hp'
    exact ⟨t1 ++ t2, by rw [ht2, ht1, List.append_assoc]⟩

theorem op_funnel_inv (o : Op) (s : Sys) (m : Option String)
    (h : funnel_inv s m) (hnc : o ≠ Op.cancel) :
    funnel_inv (Op.step o s) (upd_mark (op_mark o s) m) := by
  obtain ⟨h1, h2, h3⟩ := h
  cases o with
  | getOrCreate =>
    refine ⟨h1, ?_, ?_⟩
    · intro hm
      exact op_progress_some Op.getOrCreate s (h2 hm)
    · intro p hp
      cases hpr : s.progress with
      | some p0 =>
        rw [show (Op.step Op.getOrCreate s).progress = s.progress from
          by simp [Op.step, user_progress_get, hpr]] at hp
        exact h3 p hp
      | none =>
        rw [show (Op.step Op.getOrCreate s).progress = some progress_default from
          by simp [Op.step, user_progress_get, hpr]] at hp
        obtain rfl : progress_default = p := by injection hp
        cases hm : m with
        | none => rfl
        | some st =>
          have hps := h2 (by rw [hm]; rfl)
          rw [hpr] at hps; cases hps
  | markStep st =>
    cases hpr : s.progress with
    | none =>
      have hom : op_mark (Op.markStep st) s = none := by simp [op_mark, hpr]
      rw [hom]; simp only [upd_mark]
      refine ⟨h1, ?_, ?_⟩
      · intro hm
        have hps := h2 hm
        rw [hpr] at hps; cases hps
      · intro p hp
        rw [show (Op.step (Op.markStep st) s).progress = none from
          by simp [Op.step, hpr]] at hp
        cases hp
    | some p0 =>
      have hstep : (Op.step (Op.markStep st) s).progress =
          some (p0.mark_step_completed st) := by simp [Op.step, hpr]
      cases hsp : step_progression st with
      | some nxt =>
        have hom : op_mark (Op.markStep st) s = some st := by simp [op_mark, hpr, hsp]
        rw [hom]; simp only [upd_mark]
        refine ⟨?_, ?_, ?_⟩
        · intro st' hst'
          obtain rfl : st = st' := by injection hst'
          rw [hsp]; rfl
        · intro _
          rw [hstep]; rfl
        · intro p hp
          rw [hstep] at hp
          obtain rfl : p0.mark_step_completed st = p := by injection hp
          rw [mark_cur_key p0 st nxt hsp]
          simp [expected_step, hsp]
      | none =>
        have hom : op_mark (Op.markStep st) s = none := by simp [op_mark, hsp]
        rw [hom]; simp only [upd_mark]
        refine ⟨h1, ?_, ?_⟩
        · intro _
          rw [hstep]; rfl
        · intro p hp
          rw [hstep] at hp
          obtain rfl : p0.mark_step_completed st = p := by injection hp
          rw [mark_cur_unrec p0 st hsp]
          exact h3 p0 hpr
  | enqueue now =>
    rcases plan_generation_post_spec now s with ⟨hA, hB, -⟩ | ⟨p0, hpr, -, -, -, heq⟩
    · obtain ⟨e, he⟩ := Option.isSome_iff_exists.mp hB
      have hom : op_mark (Op.enqueue now) s = none := by simp [op_mark, he]
      have hstep : (Op.step (Op.enqueue now) s).progress = s.progress := by
        rw [Op.step, hA]
      rw [hom]; simp only [upd_mark]
      refine ⟨h1, ?_, ?_⟩
      · intro hm; rw [hstep]; exact h2 hm
      · intro p hp; rw [hstep] at hp; exact h3 p hp
    · have h2n : (plan_generation_post now s).2 = none := by rw [heq]
      have hom : op_mark (Op.enqueue now) s = some "payment_completed" := by
        simp [op_mark, h2n]
      have hstep : (Op.step (Op.enqueue now) s).progress =
          some (p0.mark_step_completed "payment_completed") := by
        rw [Op.step, show (plan_generation_post now s).1 =
          { s with
            job := some (new_plan_generation now)
            progress := some (p0.mark_step_completed "payment_completed") }
          from by rw [heq]]
      rw [hom]; simp only [upd_mark]
      refine ⟨?_, ?_, ?_⟩
      · intro st' hst'
        obtain rfl : "payment_completed" = st' := by injection hst'
        rfl
      · intro _
        rw [hstep]; rfl
      · intro p hp
        rw [hstep] at hp
        obtain rfl : p0.mark_step_completed "payment_completed" = p := by injection hp
        rw [mark_cur_key p0 "payment_completed" "plan_generation" rfl]
        rfl
  | retryJob now =>
    have hstep : (Op.step (Op.retryJob now) s).progress = s.progress := by
      rcases retry_spec now s with ⟨hA, -, -⟩ | ⟨g, -, -, heq⟩
      · rw [Op.step, hA]
      · rw [Op.step, show (retry_plan_generation now s).1 =
          { s with job := some { g with
              status := "queued"
              queued_at := some now
              error_message := ""
              retry_count := g.retry_count + 1 } } from by rw [heq]]
    refine ⟨h1, ?_, ?_⟩
    · intro hm; rw [hstep]; exact h2 hm
    · intro p hp; rw [hstep] at hp; exact h3 p hp
  | cancel => exact absurd rfl hnc
  | worker failAt now =>
    rcases generate_user_plan_spec failAt now s with
      ⟨-, heq⟩ | ⟨g, -, -, heq⟩ | ⟨g, e, -, -, -, heq⟩ | ⟨g, p0, -, -, -, hpr0, heq⟩
    · have e1 : (generate_user_plan failAt now s).1 = false := by rw [heq]
      have hstep : (Op.step (Op.worker failAt now) s).progress = s.progress := by
        rw [Op.step, show (generate_user_plan failAt now s).2 = s from by rw [heq]]
      have hom : op_mark (Op.worker failAt now) s = none := by simp [op_mark, e1]
      rw [hom]; simp only [upd_mark]
      exact ⟨h1, fun hm => by rw [hstep]; exact h2 hm,
        fun p hp => h3 p (by rw [hstep] at hp; exact hp)⟩
    · have e1 : (generate_user_plan failAt now s).1 = false := by rw [heq]
      have hstep : (Op.step (Op.worker failAt now) s).progress = s.progress := by
        rw [Op.step, show (generate_user_plan failAt now s).2 = s from by rw [heq]]
      have hom : op_mark (Op.worker failAt now) s = none := by simp [op_mark, e1]
      rw [hom]; simp only [upd_mark]
      exact ⟨h1, fun hm => by rw [hstep]; exact h2 hm,
        fun p hp => h3 p (by rw [hstep] at hp; exact hp)⟩
    · have e1 : (generate_user_plan failAt now s).1 = false := by rw [heq]
      have hstep : (Op.step (Op.worker failAt now) s).progress = s.progress := by
        rw [Op.step, show (generate_user_plan failAt now s).2 =
          { s with job := some (failed_job now g e) } from by rw [heq]]
      have hom : op_mark (Op.worker failAt now) s = none := by simp [op_mark, e1]
      rw [hom]; simp only [upd_mark]
      exact ⟨h1, fun hm => by rw [hstep]; exact h2 hm,
        fun p hp => h3 p (by rw [hstep] at hp; exact hp)⟩
    · have e1 : (generate_user_plan failAt now s).1 = true := by rw [heq]
      have hstep : (Op.step (Op.worker failAt now) s).progress =
          some (p0.mark_step_completed "plan_generation") := by
        rw [Op.step, show (generate_user_plan failAt now s).2 =
          completed_sys now s g p0 from by rw [heq]]
        rfl
      have hom : op_mark (Op.worker failAt now) s = some "plan_generation" := by
        simp [op_mark, e1]
      rw [hom]; simp only [upd_mark]
      refine ⟨?_, ?_, ?_⟩
      · intro st' hst'
        obtain rfl : "plan_generation" = st' := by injection hst'
        rfl
      · intro _
        rw [hstep]; rfl
      · intro p hp
        rw [hstep] at hp
        obtain rfl : p0.mark_step_completed "plan_generation" = p := by injection hp
        rw [mark_cur_key p0 "plan_generation" "plan_ready" rfl]
        rfl
  | taskExhaust =>
    have hstep : (Op.step Op.taskExhaust s).progress = s.progress := by
      rw [Op.step]
      unfold task_exhaust_write
      cases s.job <;> rfl
    refine ⟨h1, ?_, ?_⟩
    · intro hm; rw [hstep]; exact h2 hm
    · intro p hp; rw [hstep] at hp; exact h3 p hp

theorem run_marks_funnel_inv (ops : List Op) (s : Sys) (m : Option String)
    (h : funnel_inv s m) (hcf : cancel_free ops = true) :
    funnel_inv (run_marks ops s m).1 (run_marks ops s m).2 := by
  induction ops generalizing s m with
  | nil => exact h
  | cons o os ih =>
    have hno : o ≠ Op.cancel := by
      intro he
      subst he
      exact absurd hcf (by simp [cancel_free])
    have hcf' : cancel_free os = true := by
      cases o <;> first | exact hcf | exact absurd rfl hno
    exact ih (Op.step o s) (upd_mark (op_mark o s) m) (op_funnel_inv o s m h hno) hcf'

theorem funnel_inv_fresh (s : Sys) (h : s.progress = none) : funnel_inv s none := by
  refine ⟨?_, ?_, ?_⟩
  · intro st hst; cases hst
  · intro hm; cases hm
  · intro p hp; rw [h] at hp; cases hp

-- ===== C1 =====

/-- C1 (corrected): across every sequence of the exposed operations,
`completed_steps` never shrinks (the old list is always a prefix of the
new), and every change to the `ProgressState` happens through
`mark_step_completed` — **except** `cancel`, which writes `current_step`
back to `payment_completed` directly.  For cancel-free sequences from a
fresh user, `current_step` always equals the progression-table successor of
the most recently marked step that has a successor (or `goal_selection`
when no such step was marked); `cancel` breaks that relationship, so the
claimed invariant only holds with `cancel` excluded. -/
theorem C1_progress_state_machine :
    (∀ (o : Op) (s : Sys),
      (Op.step o s).progress = s.progress ∨
      (s.progress = none ∧ (Op.step o s).progress = some progress_default) ∨
      (∃ st, (Op.step o s).progress =
        s.progress.map (fun p => p.mark_step_completed st)) ∨
      (o = Op.cancel ∧ (Op.step o s).progress =
        s.progress.map (fun p => { p with current_step := "payment_completed" }))) ∧
    (∀ (ops : List Op) (s : Sys) (p p' : UserProgress),
      s.progress = some p → (run_ops ops s).progress = some p' →
      ∃ t, p'.completed_steps = p.completed_steps ++ t) ∧
    (∀ (ops : List Op) (s : Sys), s.progress = none → cancel_free ops = true →
      ∀ p, ((run_marks ops s none).1).progress = some p →
        p.current_step = expected_step (run_marks ops s none).2) :=
  ⟨op_progress_effect, run_ops_no_shrink,
   fun ops s h0 hcf p hp =>
     (run_marks_funnel_inv ops s none (funnel_inv_fresh s h0) hcf).2.2 p hp⟩

/-- C1 counterexample: starting from a fresh user and walking the funnel to
`plan_generation`, a single `cancel` mutates the `ProgressState` without
going through `mark_step_completed` and leaves `current_step =
"payment_completed"`, which is not the successor (`"plan_generation"`) of
the most recently completed step (`"payment_completed"`); marking the
successor-less step `"completed"` also leaves `current_step` unrelated to
the most recently completed step. -/
theorem C1_counterexample :
    (run_ops [Op.getOrCreate, Op.markStep "goal_selection",
       Op.markStep "questionnaire", Op.markStep "payment_pending",
       Op.enqueue 5] (sys0 true true)).progress =
      some ⟨"plan_generation",
        ["goal_selection", "questionnaire", "payment_pending", "payment_completed"]⟩ ∧
    (run_ops [Op.getOrCreate, Op.markStep "goal_selection",
       Op.markStep "questionnaire", Op.markStep "payment_pending",
       Op.enqueue 5, Op.cancel] (sys0 true true)).progress =
      some ⟨"payment_completed",
        ["goal_selection", "questionnaire", "payment_pending", "payment_completed"]⟩ ∧
    step_progression "payment_completed" = some "plan_generation" ∧
    "plan_generation" ≠ "payment_completed" ∧
    (run_ops [Op.getOrCreate, Op.markStep "completed"] (sys0 true true)).progress =
      some ⟨"goal_selection", ["completed"]⟩ ∧
    step_progression "completed" = none := by
  decide

/-- C1 witness: the cancel-free funnel invariant evaluated on a concrete
two-operation run. -/
theorem C1_witness :
    (⟨"questionnaire", ["goal_selection"]⟩ : UserProgress).current_step =
      expected_step (run_marks [Op.getOrCreate, Op.markStep "goal_selection"]
        (sys0 true true) none).2 :=
  C1_progress_state_machine.2.2 [Op.getOrCreate, Op.markStep "goal_selection"]
    (sys0 true true) rfl rfl ⟨"questionnaire", ["goal_selection"]⟩ (by decide)
